import Mathlib

/-!
Verification of the note persistence and update-merge engine of the notes
web application.  The definitions below are a shallow embedding of the
hardened server (`writeNotes` with temp-file-plus-rename, `readNotes` with
corruption backup, and the five HTTP handlers) together with the
client-side category filtering of `renderNotes`.  File-system effects are
modelled by an explicit store of path/content pairs, and I/O failures of
the individual primitives are injected through explicit fault flags.
-/

/-- JSON values as produced by JSON.parse: null, booleans, numbers
(integral in this development), strings, arrays, and objects.  Objects are
association lists in insertion order; a later binding for the same key
shadows an earlier one, exactly as in a JS object literal built by
spreading. -/
inductive JVal where
  | null : JVal
  | bool : Bool → JVal
  | num : Int → JVal
  | str : String → JVal
  | arr : List JVal → JVal
  | obj : List (String × JVal) → JVal

/-- First-match lookup in an association list of object fields. -/
def lookupStr : List (String × JVal) → String → Option JVal
  | [], _ => none
  | (k, v) :: rest, key => if k = key then some v else lookupStr rest key

/-- Property access `v[k]` on a JS value: `undefined` (here `none`) unless
`v` is an object that binds `k`; the latest binding wins, as in JS. -/
def jGet : JVal → String → Option JVal
  | JVal.obj fields, k => lookupStr fields.reverse k
  | _, _ => none

/-- JS truthiness of a defined value: null, false, 0 and the empty string
are falsy; every array and object is truthy. -/
def jTruthy : JVal → Bool
  | JVal.null => false
  | JVal.bool b => b
  | JVal.num n => !(n == 0)
  | JVal.str s => !(s == "")
  | JVal.arr _ => true
  | JVal.obj _ => true

/-- JS falsiness of a possibly-undefined value, as in `!title`. -/
def jFalsyOpt : Option JVal → Bool
  | none => true
  | some v => !jTruthy v

/-- JS `x || d` on a destructured (possibly-undefined) value `x`. -/
def jOr : Option JVal → JVal → JVal
  | some v, d => if jTruthy v then v else d
  | none, d => d

/-- `Array.isArray`. -/
def isArray : JVal → Bool
  | JVal.arr _ => true
  | _ => false

/-! ### A model of JSON.parse -/

/-- JSON whitespace. -/
def isWsChar (c : Char) : Bool := c = ' ' || c = '\n' || c = '\t' || c = '\r'

/-- Drop leading JSON whitespace. -/
def skipWs : List Char → List Char
  | [] => []
  | c :: rest => if isWsChar c then skipWs rest else c :: rest

/-- `!data.trim()`: the string is empty or consists only of whitespace. -/
def allWs (s : String) : Bool := s.data.all isWsChar

/-- Consume an expected literal suffix, returning the remainder. -/
def dropLit : List Char → List Char → Option (List Char)
  | cs, [] => some cs
  | [], _ :: _ => none
  | c :: cs, p :: ps => if c = p then dropLit cs ps else none

/-- Decode a JSON string escape character. -/
def unescChar (c : Char) : Option Char :=
  if c = '"' then some '"'
  else if c = '\\' then some '\\'
  else if c = '/' then some '/'
  else if c = 'n' then some '\n'
  else if c = 't' then some '\t'
  else if c = 'r' then some '\r'
  else if c = 'b' then some (Char.ofNat 8)
  else if c = 'f' then some (Char.ofNat 12)
  else none

/-- Scan the body of a JSON string (the opening quote already consumed),
returning the decoded characters and the remainder after the closing
quote. -/
def parseStrChars : List Char → Option (List Char × List Char)
  | [] => none
  | c :: rest =>
    if c = '"' then some ([], rest)
    else if c = '\\' then
      match rest with
      | [] => none
      | e :: rest2 =>
        match unescChar e, parseStrChars rest2 with
        | some c2, some (a, r) => some (c2 :: a, r)
        | _, _ => none
    else
      match parseStrChars rest with
      | some (a, r) => some (c :: a, r)
      | none => none

/-- Decimal digit test. -/
def isDigitCh (c : Char) : Bool := '0' ≤ c && c ≤ '9'

/-- Accumulate a run of decimal digits. -/
def digitsAux : List Char → Nat → Nat × List Char
  | [], acc => (acc, [])
  | c :: rest, acc =>
    if isDigitCh c then digitsAux rest (acc * 10 + (c.toNat - '0'.toNat))
    else (acc, c :: rest)

/-- Parse a nonempty run of decimal digits. -/
def parseNat1 : List Char → Option (Nat × List Char)
  | [] => none
  | c :: rest =>
    if isDigitCh c then some (digitsAux rest (c.toNat - '0'.toNat)) else none

mutual

/-- Parse one JSON value, fuel-bounded. -/
def parseVal : Nat → List Char → Option (JVal × List Char)
  | 0, _ => none
  | fuel + 1, cs =>
    match skipWs cs with
    | [] => none
    | c :: rest =>
      if c = 'n' then
        match dropLit rest ['u', 'l', 'l'] with
        | some r => some (JVal.null, r)
        | none => none
      else if c = 't' then
        match dropLit rest ['r', 'u', 'e'] with
        | some r => some (JVal.bool true, r)
        | none => none
      else if c = 'f' then
        match dropLit rest ['a', 'l', 's', 'e'] with
        | some r => some (JVal.bool false, r)
        | none => none
      else if c = '"' then
        match parseStrChars rest with
        | some (a, r) => some (JVal.str (String.mk a), r)
        | none => none
      else if c = '[' then
        match skipWs rest with
        | ']' :: r => some (JVal.arr [], r)
        | cs2 =>
          match parseItems fuel cs2 with
          | some (vs, r) => some (JVal.arr vs, r)
          | none => none
      else if c = '\x7b' then
        match skipWs rest with
        | '\x7d' :: r => some (JVal.obj [], r)
        | cs2 =>
          match parseFields fuel cs2 with
          | some (fs, r) => some (JVal.obj fs, r)
          | none => none
      else if c = '-' then
        match parseNat1 rest with
        | some (n, r) => some (JVal.num (-(n : Int)), r)
        | none => none
      else if isDigitCh c then
        match parseNat1 (c :: rest) with
        | some (n, r) => some (JVal.num (n : Int), r)
        | none => none
      else none

/-- Parse the comma-separated items of a JSON array up to `]`. -/
def parseItems : Nat → List Char → Option (List JVal × List Char)
  | 0, _ => none
  | fuel + 1, cs =>
    match parseVal fuel cs with
    | none => none
    | some (v, r) =>
      match skipWs r with
      | ',' :: r2 =>
        match parseItems fuel r2 with
        | some (vs, r3) => some (v :: vs, r3)
        | none => none
      | ']' :: r2 => some ([v], r2)
      | _ => none

/-- Parse the comma-separated fields of a JSON object up to the closing
brace. -/
def parseFields : Nat → List Char → Option (List (String × JVal) × List Char)
  | 0, _ => none
  | fuel + 1, cs =>
    match skipWs cs with
    | '"' :: rest =>
      match parseStrChars rest with
      | none => none
      | some (kcs, r) =>
        match skipWs r with
        | ':' :: r2 =>
          match parseVal fuel r2 with
          | none => none
          | some (v, r3) =>
            match skipWs r3 with
            | ',' :: r4 =>
              match parseFields fuel r4 with
              | some (fs, r5) => some ((String.mk kcs, v) :: fs, r5)
              | none => none
            | '\x7d' :: r4 => some ([(String.mk kcs, v)], r4)
            | _ => none
        | _ => none
    | _ => none

end

/-- JSON.parse: parse one value and require only whitespace after it.
Returns `none` where JSON.parse throws a SyntaxError. -/
def jparse (s : String) : Option JVal :=
  match parseVal (2 * s.data.length + 2) s.data with
  | some (v, r) => if skipWs r = [] then some v else none
  | none => none

/-! ### A model of JSON.stringify(v, null, 2) -/

/-- Escape one character for a JSON string literal. -/
def escChar (c : Char) : String :=
  if c = '"' then "\\\""
  else if c = '\\' then "\\\\"
  else if c = '\n' then "\\n"
  else if c = '\t' then "\\t"
  else if c = '\r' then "\\r"
  else String.singleton c

/-- Serialize a string as a JSON string literal. -/
def escStr (s : String) : String :=
  "\"" ++ String.join (s.data.map escChar) ++ "\""

/-- An indentation of `n` spaces. -/
def nSpaces (n : Nat) : String := String.mk (List.replicate n ' ')

mutual

/-- Serialize a JSON value with two-space pretty printing at the given
indentation, as JSON.stringify(v, null, 2) does. -/
def strJ : JVal → Nat → String
  | JVal.null, _ => "null"
  | JVal.bool true, _ => "true"
  | JVal.bool false, _ => "false"
  | JVal.num n, _ => toString n
  | JVal.str s, _ => escStr s
  | JVal.arr [], _ => "[]"
  | JVal.arr (x :: xs), ind =>
    "[\n" ++ String.intercalate ",\n" (strItems (x :: xs) (ind + 2))
      ++ "\n" ++ nSpaces ind ++ "]"
  | JVal.obj [], _ => "\x7b\x7d"
  | JVal.obj (f :: fs), ind =>
    "\x7b\n" ++ String.intercalate ",\n" (strFields (f :: fs) (ind + 2))
      ++ "\n" ++ nSpaces ind ++ "\x7d"

/-- Serialize the items of an array, one line each. -/
def strItems : List JVal → Nat → List String
  | [], _ => []
  | x :: xs, ind => (nSpaces ind ++ strJ x ind) :: strItems xs ind

/-- Serialize the fields of an object, one line each. -/
def strFields : List (String × JVal) → Nat → List String
  | [], _ => []
  | (k, v) :: fs, ind =>
    (nSpaces ind ++ escStr k ++ ": " ++ strJ v ind) :: strFields fs ind

end

/-- JSON.stringify(v, null, 2). -/
def jStringify (v : JVal) : String := strJ v 0

/-! ### The file system and its fault model -/

/-- The file system restricted to the data directory: a finite map from
paths to contents. -/
structure FS where
  files : List (String × String)

/-- Lookup in a path/content association list. -/
def getAssoc : List (String × String) → String → Option String
  | [], _ => none
  | (k, v) :: rest, key => if k = key then some v else getAssoc rest key

/-- Update or insert in a path/content association list. -/
def setAssoc : List (String × String) → String → String → List (String × String)
  | [], key, c => [(key, c)]
  | (k, v) :: rest, key, c =>
    if k = key then (key, c) :: rest else (k, v) :: setAssoc rest key c

/-- Remove a path from a path/content association list. -/
def delAssoc : List (String × String) → String → List (String × String)
  | [], _ => []
  | (k, v) :: rest, key =>
    if k = key then delAssoc rest key else (k, v) :: delAssoc rest key

/-- Read a file's content, `none` when the path does not exist. -/
def FS.get (fs : FS) (p : String) : Option String := getAssoc fs.files p

/-- Write a file (create or overwrite). -/
def FS.set (fs : FS) (p : String) (c : String) : FS := ⟨setAssoc fs.files p c⟩

/-- Unlink a file. -/
def FS.del (fs : FS) (p : String) : FS := ⟨delAssoc fs.files p⟩

/-- Observable file-system events, used to state in which order the store
touches its backing files. -/
inductive FsEv where
  | wrote : String → FsEv
  | renamed : String → String → FsEv
  | unlinked : String → FsEv
  | readF : String → FsEv

/-- Fault flags injecting I/O failures into the file primitives: whether
the write of the temp file, the rename, the best-effort unlink, and the
write of a corruption backup succeed. -/
structure Faults where
  writeTmpOk : Bool
  renameOk : Bool
  unlinkOk : Bool
  backupOk : Bool

/-- The backing file `data/notes.json`. -/
def DATA_FILE : String := "data/notes.json"

/-- The temporary file used by the atomic write. -/
def TMP_FILE : String := DATA_FILE ++ ".tmp"

/-- `writeNotes` of the hardened server: reject non-array input (the
thrown error lands in the catch block), write the serialization to the
temp file, rename it over `DATA_FILE`; on any failure attempt a
best-effort unlink of the temp file and return `false` to the caller
instead of throwing.  Returns the success flag, the resulting file
system, and the event trace. -/
def writeNotes (flt : Faults) (v : JVal) (fs : FS) : Bool × FS × List FsEv :=
  if !(isArray v) then
    (false, if flt.unlinkOk then fs.del TMP_FILE else fs, [FsEv.unlinked TMP_FILE])
  else if !flt.writeTmpOk then
    (false, if flt.unlinkOk then fs.del TMP_FILE else fs, [FsEv.unlinked TMP_FILE])
  else
    let fs1 := fs.set TMP_FILE (jStringify v)
    if flt.renameOk then
      (true, (fs1.del TMP_FILE).set DATA_FILE (jStringify v),
        [FsEv.wrote TMP_FILE, FsEv.renamed TMP_FILE DATA_FILE])
    else
      (false, if flt.unlinkOk then fs1.del TMP_FILE else fs1,
        [FsEv.wrote TMP_FILE, FsEv.unlinked TMP_FILE])

/-- `readNotes` of the hardened server.  A missing file makes the read
throw, landing in the corruption handler whose backup re-read also
throws, so the file is only reset; whitespace-only content self-heals to
an empty array; unparsable content is first copied to a timestamped
backup (`DATA_FILE ++ ".corrupted." ++ Date.now()`) and then reset;
parsable non-array content is reset; a parsed array is returned as is. -/
def readNotes (nowMs : Nat) (flt : Faults) (fs : FS) : List JVal × FS × List FsEv :=
  match fs.get DATA_FILE with
  | none =>
    let w := writeNotes flt (JVal.arr []) fs
    ([], w.2.1, FsEv.readF DATA_FILE :: w.2.2)
  | some data =>
    if allWs data then
      let w := writeNotes flt (JVal.arr []) fs
      ([], w.2.1, FsEv.readF DATA_FILE :: w.2.2)
    else
      match jparse data with
      | some (JVal.arr xs) => (xs, fs, [FsEv.readF DATA_FILE])
      | some _ =>
        let w := writeNotes flt (JVal.arr []) fs
        ([], w.2.1, FsEv.readF DATA_FILE :: w.2.2)
      | none =>
        let backup := DATA_FILE ++ ".corrupted." ++ toString nowMs
        let fs1 := if flt.backupOk then fs.set backup data else fs
        let w := writeNotes flt (JVal.arr []) fs1
        ([], w.2.1,
          FsEv.readF DATA_FILE :: FsEv.readF DATA_FILE :: FsEv.wrote backup :: w.2.2)

/-! ### The note operations (the HTTP handler bodies) -/

/-- `n.id === rid` where `rid` is the request's id string. -/
def idMatches (n : JVal) (rid : String) : Bool :=
  match jGet n "id" with
  | some (JVal.str s) => s == rid
  | _ => false

/-- The id of a note when it is a string, for stating uniqueness. -/
def idKey (n : JVal) : Option String :=
  match jGet n "id" with
  | some (JVal.str s) => some s
  | _ => none

/-- `note.category === currentFilter`. -/
def catMatches (n : JVal) (c : String) : Bool :=
  match jGet n "category" with
  | some (JVal.str s) => s == c
  | _ => false

/-- `notes.find(n => n.id === rid)`. -/
def findNote (notes : List JVal) (rid : String) : Option JVal :=
  notes.find? (fun n => idMatches n rid)

/-- The patchable fields destructured from the request body by the PUT
handler. -/
def knownFields : List String :=
  ["title", "content", "category", "reminderDate", "isReminder", "completed"]

/-- One conditional spread `...(x !== undefined && \x7b x \x7d)` of the PUT
handler: a singleton binding when the body defines the field, else
nothing. -/
def optField (body : JVal) (f : String) : List (String × JVal) :=
  match jGet body f with
  | some v => [(f, v)]
  | none => []

/-- The fields of a stored note object (spreading a non-object note
contributes no string-keyed fields). -/
def noteFields : JVal → List (String × JVal)
  | JVal.obj fs => fs
  | _ => []

/-- The merged note built by the PUT handler: the old note spread first,
then each known field of the patch when present, then a refreshed
`updatedAt`.  Later bindings shadow earlier ones. -/
def mergeNote (old : JVal) (body : JVal) (now : String) : JVal :=
  JVal.obj (noteFields old
    ++ optField body "title" ++ optField body "content" ++ optField body "category"
    ++ optField body "reminderDate" ++ optField body "isReminder"
    ++ optField body "completed"
    ++ [("updatedAt", JVal.str now)])

/-- `findIndex` plus in-place assignment of the merged note: replace the
first note whose id matches, returning the merged note and the new
collection, or `none` when no note matches. -/
def updateList (notes : List JVal) (rid : String) (body : JVal) (now : String) :
    Option (JVal × List JVal) :=
  match notes with
  | [] => none
  | n :: rest =>
    if idMatches n rid then
      some (mergeNote n body now, mergeNote n body now :: rest)
    else
      match updateList rest rid body now with
      | some (m, rest') => some (m, n :: rest')
      | none => none

/-- The GET /api/notes handler: load and return every note. -/
def listHandler (flt : Faults) (nowMs : Nat) (fs : FS) : Nat × List JVal × FS :=
  let r := readNotes nowMs flt fs
  (200, r.1, r.2.1)

/-- The note object literal built by the POST handler: id from
`Date.now().toString()`, the destructured title and content (known defined
at this point), defaults via `||`, `completed` false, and `createdAt` and
`updatedAt` from two separate `new Date().toISOString()` readings `t1` and
`t2`. -/
def builtNote (nowMs : Nat) (t1 t2 : String) (body : JVal) : JVal :=
  JVal.obj [
    ("id", JVal.str (toString nowMs)),
    ("title", (jGet body "title").getD JVal.null),
    ("content", (jGet body "content").getD JVal.null),
    ("category", jOr (jGet body "category") (JVal.str "Personal")),
    ("reminderDate", jOr (jGet body "reminderDate") JVal.null),
    ("isReminder", jOr (jGet body "isReminder") (JVal.bool false)),
    ("completed", JVal.bool false),
    ("createdAt", JVal.str t1),
    ("updatedAt", JVal.str t2)]

/-- The POST /api/notes handler: reject a falsy title or content with 400
before touching the store; otherwise load, build the new note, append,
persist, and answer 201 with the new note, or 500 when the persist
fails. -/
def createHandler (flt : Faults) (nowMs : Nat) (t1 t2 : String) (body : JVal) (fs : FS) :
    Nat × Option JVal × FS :=
  if jFalsyOpt (jGet body "title") || jFalsyOpt (jGet body "content") then
    (400, none, fs)
  else
    let r := readNotes nowMs flt fs
    let newNote := builtNote nowMs t1 t2 body
    let w := writeNotes flt (JVal.arr (r.1 ++ [newNote])) r.2.1
    if w.1 then (201, some newNote, w.2.1) else (500, none, w.2.1)

/-- The PUT /api/notes/:id handler: load, find the note by id (404 when
absent), merge the patch, persist, and answer 200 with the merged note,
or 500 when the persist fails. -/
def putHandler (flt : Faults) (nowMs : Nat) (now : String) (rid : String) (body : JVal)
    (fs : FS) : Nat × Option JVal × FS :=
  let r := readNotes nowMs flt fs
  match updateList r.1 rid body now with
  | none => (404, none, r.2.1)
  | some (m, notes') =>
    let w := writeNotes flt (JVal.arr notes') r.2.1
    if w.1 then (200, some m, w.2.1) else (500, none, w.2.1)

/-- The DELETE /api/notes/:id handler: load, drop every note whose id
matches, 404 when nothing was dropped, otherwise persist the filtered
collection and answer 200, or 500 when the persist fails. -/
def deleteHandler (flt : Faults) (nowMs : Nat) (rid : String) (fs : FS) : Nat × FS :=
  let r := readNotes nowMs flt fs
  let filtered := r.1.filter (fun n => !(idMatches n rid))
  if r.1.length = filtered.length then (404, r.2.1)
  else
    let w := writeNotes flt (JVal.arr filtered) r.2.1
    if w.1 then (200, w.2.1) else (500, w.2.1)

/-- The client-side filtering of `renderNotes`: the sentinel filter value
`"all"` shows every note, any other filter keeps exactly the notes whose
`category` strictly equals it. -/
def renderFiltered (currentFilter : String) (notes : List JVal) : List JVal :=
  if currentFilter = "all" then notes
  else notes.filter (fun n => catMatches n currentFilter)

/-! ### Helper lemmas -/

/-- Priority choice between two possibly-absent bindings, the first one
winning, as a later JS spread wins over an earlier one. -/
def optOr : Option JVal → Option JVal → Option JVal
  | some v, _ => some v
  | none, o => o

theorem optOr_some (v : JVal) (o : Option JVal) : optOr (some v) o = some v := rfl

theorem optOr_none (o : Option JVal) : optOr none o = o := rfl

theorem lookupStr_append (l1 l2 : List (String × JVal)) (k : String) :
    lookupStr (l1 ++ l2) k = optOr (lookupStr l1 k) (lookupStr l2 k) := by
  induction l1 with
  | nil => simp [lookupStr, optOr]
  | cons p rest ih =>
    obtain ⟨k1, v1⟩ := p
    by_cases h : k1 = k <;> simp [lookupStr, h, ih, optOr]

theorem lookupStr_single (f : String) (v : JVal) (k : String) :
    lookupStr [(f, v)] k = if k = f then some v else none := by
  simp [lookupStr, eq_comm]

theorem lookupStr_optField_rev (body : JVal) (f k : String) :
    lookupStr (optField body f).reverse k = if k = f then jGet body f else none := by
  cases h : jGet body f <;> simp [optField, h, lookupStr, eq_comm]

theorem lookupStr_noteFields_rev (old : JVal) (k : String) :
    lookupStr (noteFields old).reverse k = jGet old k := by
  cases old <;> simp [noteFields, jGet, lookupStr]

theorem mergeNote_get (old body : JVal) (now k : String) :
    jGet (mergeNote old body now) k =
      if k = "updatedAt" then some (JVal.str now)
      else if k = "title" then optOr (jGet body "title") (jGet old k)
      else if k = "content" then optOr (jGet body "content") (jGet old k)
      else if k = "category" then optOr (jGet body "category") (jGet old k)
      else if k = "reminderDate" then optOr (jGet body "reminderDate") (jGet old k)
      else if k = "isReminder" then optOr (jGet body "isReminder") (jGet old k)
      else if k = "completed" then optOr (jGet body "completed") (jGet old k)
      else jGet old k := by
  have hmerge : jGet (mergeNote old body now) k =
      optOr (if k = "updatedAt" then some (JVal.str now) else none)
        (optOr (if k = "completed" then jGet body "completed" else none)
          (optOr (if k = "isReminder" then jGet body "isReminder" else none)
            (optOr (if k = "reminderDate" then jGet body "reminderDate" else none)
              (optOr (if k = "category" then jGet body "category" else none)
                (optOr (if k = "content" then jGet body "content" else none)
                  (optOr (if k = "title" then jGet body "title" else none)
                    (jGet old k))))))) := by
    show lookupStr _ k = _
    simp only [mergeNote, jGet, List.reverse_append, List.reverse_singleton,
      lookupStr_append, lookupStr_optField_rev, lookupStr_noteFields_rev,
      lookupStr_single]
  rw [hmerge]
  by_cases h1 : k = "updatedAt"
  · subst h1; simp [optOr]
  · by_cases h2 : k = "title"
    · subst h2; simp [optOr]
    · by_cases h3 : k = "content"
      · subst h3; simp [optOr]
      · by_cases h4 : k = "category"
        · subst h4; simp [optOr]
        · by_cases h5 : k = "reminderDate"
          · subst h5; simp [optOr]
          · by_cases h6 : k = "isReminder"
            · subst h6; simp [optOr]
            · by_cases h7 : k = "completed"
              · subst h7; simp [optOr]
              · simp [h1, h2, h3, h4, h5, h6, h7, optOr]

theorem idMatches_iff (n : JVal) (rid : String) :
    idMatches n rid = true ↔ idKey n = some rid := by
  unfold idMatches idKey
  cases h : jGet n "id" with
  | none => simp
  | some v => cases v <;> simp

theorem catMatches_iff (n : JVal) (c : String) :
    catMatches n c = true ↔ jGet n "category" = some (JVal.str c) := by
  unfold catMatches
  cases h : jGet n "category" with
  | none => simp
  | some v => cases v <;> simp

theorem getAssoc_set_same (l : List (String × String)) (p c : String) :
    getAssoc (setAssoc l p c) p = some c := by
  induction l with
  | nil => simp [setAssoc, getAssoc]
  | cons q rest ih =>
    obtain ⟨k, v⟩ := q
    by_cases h : k = p <;> simp [setAssoc, getAssoc, h, ih]

theorem getAssoc_set_other (l : List (String × String)) (p c q : String) (h : q ≠ p) :
    getAssoc (setAssoc l p c) q = getAssoc l q := by
  have hpq : ¬(p = q) := fun hh => h hh.symm
  induction l with
  | nil => simp [setAssoc, getAssoc, hpq]
  | cons e rest ih =>
    obtain ⟨k, v⟩ := e
    by_cases hk : k = p
    · subst hk
      simp [setAssoc, getAssoc, hpq]
    · simp [setAssoc, getAssoc, hk, ih]

theorem getAssoc_del_same (l : List (String × String)) (p : String) :
    getAssoc (delAssoc l p) p = none := by
  induction l with
  | nil => simp [delAssoc, getAssoc]
  | cons e rest ih =>
    obtain ⟨k, v⟩ := e
    by_cases h : k = p <;> simp [delAssoc, getAssoc, h, ih]

theorem getAssoc_del_other (l : List (String × String)) (p q : String) (h : q ≠ p) :
    getAssoc (delAssoc l p) q = getAssoc l q := by
  have hpq : ¬(p = q) := fun hh => h hh.symm
  induction l with
  | nil => simp [delAssoc, getAssoc]
  | cons e rest ih =>
    obtain ⟨k, v⟩ := e
    by_cases hk : k = p
    · subst hk
      simp [delAssoc, getAssoc, hpq, ih]
    · simp [delAssoc, getAssoc, hk, ih]

theorem FS.get_set_same (fs : FS) (p c : String) : (fs.set p c).get p = some c :=
  getAssoc_set_same fs.files p c

theorem FS.get_set_other (fs : FS) (p c q : String) (h : q ≠ p) :
    (fs.set p c).get q = fs.get q :=
  getAssoc_set_other fs.files p c q h

theorem FS.get_del_same (fs : FS) (p : String) : (fs.del p).get p = none :=
  getAssoc_del_same fs.files p

theorem FS.get_del_other (fs : FS) (p q : String) (h : q ≠ p) :
    (fs.del p).get q = fs.get q :=
  getAssoc_del_other fs.files p q h

theorem tmp_ne_data : TMP_FILE ≠ DATA_FILE := by decide

theorem data_ne_tmp : DATA_FILE ≠ TMP_FILE := by decide

theorem writeNotes_ok (flt : Faults) (v : JVal) (fs : FS) (ha : isArray v = true)
    (h1 : flt.writeTmpOk = true) (h2 : flt.renameOk = true) :
    writeNotes flt v fs
      = (true, ((fs.set TMP_FILE (jStringify v)).del TMP_FILE).set DATA_FILE (jStringify v),
          [FsEv.wrote TMP_FILE, FsEv.renamed TMP_FILE DATA_FILE]) := by
  simp [writeNotes, ha, h1, h2]

theorem writeNotes_fail (flt : Faults) (v : JVal) (fs : FS)
    (h : flt.writeTmpOk = false ∨ flt.renameOk = false) :
    (writeNotes flt v fs).1 = false := by
  rcases h with h | h <;>
    cases ha : isArray v <;>
      cases hw : flt.writeTmpOk <;>
        simp_all [writeNotes]

theorem readNotes_wellFormed (nowMs : Nat) (flt : Faults) (fs : FS) (data : String)
    (notes : List JVal) (hfile : fs.get DATA_FILE = some data) (hws : allWs data = false)
    (hparse : jparse data = some (JVal.arr notes)) :
    readNotes nowMs flt fs = (notes, fs, [FsEv.readF DATA_FILE]) := by
  unfold readNotes
  rw [hfile]
  simp [hws, hparse]

/-! ### Claims -/

/-- C1.  The update operation's field-level merge: a known field present
in the patch ends up in the merged note with exactly the patch's value; a
known field absent from the patch keeps the previously stored value;
`updatedAt` is set to the operation's current time; and a patch key
outside the known field set is ignored — its stored binding (if any) is
the previously stored one, so a key the note did not already have does
not appear. -/
theorem c1_update_merge (old body : JVal) (now : String) :
    (∀ k ∈ knownFields, ∀ v, jGet body k = some v →
      jGet (mergeNote old body now) k = some v)
  ∧ (∀ k ∈ knownFields, jGet body k = none →
      jGet (mergeNote old body now) k = jGet old k)
  ∧ jGet (mergeNote old body now) "updatedAt" = some (JVal.str now)
  ∧ (∀ k, k ∉ knownFields → k ≠ "updatedAt" →
      jGet (mergeNote old body now) k = jGet old k) := by
  refine ⟨?_, ?_, ?_, ?_⟩
  · intro k hk v hv
    simp only [knownFields, List.mem_cons, List.mem_singleton, List.not_mem_nil,
      or_false] at hk
    rcases hk with rfl | rfl | rfl | rfl | rfl | rfl <;>
      simp [mergeNote_get, hv, optOr]
  · intro k hk hv
    simp only [knownFields, List.mem_cons, List.mem_singleton, List.not_mem_nil,
      or_false] at hk
    rcases hk with rfl | rfl | rfl | rfl | rfl | rfl <;>
      simp [mergeNote_get, hv, optOr]
  · simp [mergeNote_get]
  · intro k hk hupd
    simp only [knownFields, List.mem_cons, List.mem_singleton, List.not_mem_nil,
      or_false, not_or] at hk
    obtain ⟨n1, n2, n3, n4, n5, n6⟩ := hk
    simp [mergeNote_get, hupd, n1, n2, n3, n4, n5, n6]

/-- A stored note and a patch used to exercise `c1_update_merge`. -/
def c1Old : JVal := JVal.obj [("id", JVal.str "1"), ("title", JVal.str "old"),
  ("content", JVal.str "c"), ("createdAt", JVal.str "T0"), ("updatedAt", JVal.str "T0")]

/-- A patch with one known field and one unknown key. -/
def c1Body : JVal := JVal.obj [("title", JVal.str "new"), ("banana", JVal.num 5)]

/-- Witness for C1 at a concrete note and patch. -/
theorem c1_update_merge_witness :
    jGet (mergeNote c1Old c1Body "T1") "title" = some (JVal.str "new")
  ∧ jGet (mergeNote c1Old c1Body "T1") "content" = jGet c1Old "content"
  ∧ jGet (mergeNote c1Old c1Body "T1") "updatedAt" = some (JVal.str "T1")
  ∧ jGet (mergeNote c1Old c1Body "T1") "banana" = jGet c1Old "banana" := by
  have h := c1_update_merge c1Old c1Body "T1"
  exact ⟨h.1 "title" (by decide) (JVal.str "new") rfl,
    h.2.1 "content" (by decide) rfl,
    h.2.2.1,
    h.2.2.2 "banana" (by decide) (by decide)⟩

/-- C7.  Creating with an empty title (or an empty content) is rejected
with 400 before the store is touched: nothing is persisted and the file
system — hence the stored collection and its length — is unchanged. -/
theorem c7_create_empty_rejected (flt : Faults) (nowMs : Nat) (t1 t2 : String)
    (body : JVal) (fs : FS)
    (h : jGet body "title" = some (JVal.str "")
       ∨ jGet body "content" = some (JVal.str "")) :
    createHandler flt nowMs t1 t2 body fs = (400, none, fs) := by
  unfold createHandler
  rcases h with h | h <;> simp [h, jFalsyOpt, jTruthy]

/-- Witness for C7: empty title on a store with one note. -/
theorem c7_create_empty_rejected_witness :
    jGet (JVal.obj [("title", JVal.str ""), ("content", JVal.str "x")]) "title"
        = some (JVal.str "")
  ∧ createHandler ⟨true, true, true, true⟩ 7 "T1" "T2"
      (JVal.obj [("title", JVal.str ""), ("content", JVal.str "x")])
      ⟨[(DATA_FILE, "[]")]⟩
      = (400, none, ⟨[(DATA_FILE, "[]")]⟩) :=
  ⟨rfl, c7_create_empty_rejected ⟨true, true, true, true⟩ 7 "T1" "T2"
    (JVal.obj [("title", JVal.str ""), ("content", JVal.str "x")])
    ⟨[(DATA_FILE, "[]")]⟩ (Or.inl rfl)⟩

theorem updateList_shape (rid : String) (body : JVal) (now : String) :
    ∀ (notes : List JVal) (m : JVal) (notes' : List JVal),
      updateList notes rid body now = some (m, notes') →
      ∃ old, old ∈ notes ∧ idMatches old rid = true ∧ m = mergeNote old body now := by
  intro notes
  induction notes with
  | nil => intro m notes' h; simp [updateList] at h
  | cons n rest ih =>
    intro m notes' h
    unfold updateList at h
    cases hn : idMatches n rid with
    | true =>
      rw [hn] at h
      simp only [if_true, Option.some.injEq, Prod.mk.injEq] at h
      exact ⟨n, by simp, hn, h.1.symm⟩
    | false =>
      rw [hn] at h
      simp only [Bool.false_eq_true, if_false] at h
      cases hrec : updateList rest rid body now with
      | none => rw [hrec] at h; exact absurd h (by simp)
      | some p =>
        obtain ⟨m2, rest'⟩ := p
        rw [hrec] at h
        simp only [Option.some.injEq, Prod.mk.injEq] at h
        obtain ⟨old, hmem, hmatch, hmerge⟩ := ih m2 rest' hrec
        exact ⟨old, by simp [hmem], hmatch, by rw [← h.1]; exact hmerge⟩

/-- C10.  The update operation performs no non-emptiness validation: a
patch whose title (or content) is the empty string succeeds, the merged
note is returned with status 200 and persisted, and its title (or
content) is the empty string. -/
theorem c10_update_allows_empty (flt : Faults) (nowMs : Nat) (now rid : String)
    (body : JVal) (fs : FS) (data : String) (notes : List JVal) (m : JVal)
    (notes' : List JVal)
    (hfile : fs.get DATA_FILE = some data) (hws : allWs data = false)
    (hparse : jparse data = some (JVal.arr notes))
    (hupd : updateList notes rid body now = some (m, notes'))
    (h1 : flt.writeTmpOk = true) (h2 : flt.renameOk = true) :
    (putHandler flt nowMs now rid body fs).1 = 200
  ∧ (putHandler flt nowMs now rid body fs).2.1 = some m
  ∧ (putHandler flt nowMs now rid body fs).2.2.get DATA_FILE
      = some (jStringify (JVal.arr notes'))
  ∧ (jGet body "title" = some (JVal.str "") → jGet m "title" = some (JVal.str ""))
  ∧ (jGet body "content" = some (JVal.str "") → jGet m "content" = some (JVal.str "")) := by
  have hread := readNotes_wellFormed nowMs flt fs data notes hfile hws hparse
  have hput : putHandler flt nowMs now rid body fs
      = (200, some m,
          ((fs.set TMP_FILE (jStringify (JVal.arr notes'))).del TMP_FILE).set DATA_FILE
            (jStringify (JVal.arr notes'))) := by
    unfold putHandler
    rw [hread]
    simp only [hupd]
    rw [writeNotes_ok flt (JVal.arr notes') fs rfl h1 h2]
    simp
  obtain ⟨old, _, _, hmerge⟩ := updateList_shape rid body now notes m notes' hupd
  refine ⟨by rw [hput], by rw [hput], ?_, ?_, ?_⟩
  · rw [hput]
    exact FS.get_set_same _ _ _
  · intro hb
    rw [hmerge, mergeNote_get]
    simp [hb, optOr]
  · intro hb
    rw [hmerge, mergeNote_get]
    simp [hb, optOr]

/-- A store with one note with id "1", used by several witnesses. -/
def oneNoteData : String :=
  "[\x7b\"id\": \"1\", \"title\": \"a\", \"content\": \"b\", \"category\": \"Work\"\x7d]"

/-- The parsed form of `oneNoteData`. -/
def oneNote : JVal := JVal.obj [("id", JVal.str "1"), ("title", JVal.str "a"),
  ("content", JVal.str "b"), ("category", JVal.str "Work")]

/-- All file primitives succeed. -/
def fltOK : Faults := ⟨true, true, true, true⟩

/-- Witness for C10: patching note "1" with an empty title succeeds and
stores the empty title. -/
theorem c10_update_allows_empty_witness :
    (putHandler fltOK 9 "T1" "1" (JVal.obj [("title", JVal.str "")])
        ⟨[(DATA_FILE, oneNoteData)]⟩).1 = 200
  ∧ (putHandler fltOK 9 "T1" "1" (JVal.obj [("title", JVal.str "")])
        ⟨[(DATA_FILE, oneNoteData)]⟩).2.1
      = some (mergeNote oneNote (JVal.obj [("title", JVal.str "")]) "T1")
  ∧ jGet (mergeNote oneNote (JVal.obj [("title", JVal.str "")]) "T1") "title"
      = some (JVal.str "") := by
  have h := c10_update_allows_empty fltOK 9 "T1" "1" (JVal.obj [("title", JVal.str "")])
    ⟨[(DATA_FILE, oneNoteData)]⟩ oneNoteData [oneNote]
    (mergeNote oneNote (JVal.obj [("title", JVal.str "")]) "T1")
    [mergeNote oneNote (JVal.obj [("title", JVal.str "")]) "T1"]
    rfl rfl rfl rfl rfl rfl
  exact ⟨h.1, h.2.1, h.2.2.2.1 rfl⟩

/-- C2.  The atomic replace-all: with input an array and both primitives
succeeding, `writeNotes` first writes the full serialization to the temp
file and then renames it over the real location (the event trace is
exactly that pair, in that order), after which the real file holds the
serialization and no temp file remains.  On any failure — non-array
input, failed temp write, or failed rename — it returns `false` to the
caller instead of throwing, and the best-effort cleanup (when the unlink
primitive succeeds) leaves no temp artifact behind. -/
theorem c2_replace_all (flt : Faults) (v : JVal) (fs : FS) :
    (isArray v = true → flt.writeTmpOk = true → flt.renameOk = true →
      writeNotes flt v fs
        = (true,
            ((fs.set TMP_FILE (jStringify v)).del TMP_FILE).set DATA_FILE (jStringify v),
            [FsEv.wrote TMP_FILE, FsEv.renamed TMP_FILE DATA_FILE])
      ∧ (writeNotes flt v fs).2.1.get DATA_FILE = some (jStringify v)
      ∧ (writeNotes flt v fs).2.1.get TMP_FILE = none)
  ∧ ((isArray v = false ∨ flt.writeTmpOk = false ∨ flt.renameOk = false) →
      (writeNotes flt v fs).1 = false
      ∧ (flt.unlinkOk = true → (writeNotes flt v fs).2.1.get TMP_FILE = none)) := by
  constructor
  · intro ha h1 h2
    rw [writeNotes_ok flt v fs ha h1 h2]
    refine ⟨rfl, FS.get_set_same _ _ _, ?_⟩
    rw [FS.get_set_other _ _ _ _ tmp_ne_data]
    exact FS.get_del_same _ _
  · intro h
    have hfalse : (writeNotes flt v fs).1 = false := by
      rcases h with ha | hw | hr
      · simp [writeNotes, ha]
      · cases ha : isArray v <;> simp [writeNotes, ha, hw]
      · cases ha : isArray v <;> cases hw : flt.writeTmpOk <;>
          simp [writeNotes, ha, hw, hr]
    refine ⟨hfalse, fun hu => ?_⟩
    rcases h with ha | hw | hr
    · simp [writeNotes, ha, hu, FS.get_del_same]
    · cases ha : isArray v <;> simp [writeNotes, ha, hw, hu, FS.get_del_same]
    · cases ha : isArray v <;> cases hw : flt.writeTmpOk <;>
        simp [writeNotes, ha, hw, hr, hu, FS.get_del_same]

/-- Witness for C2: a successful write stores the serialization and
leaves no temp file; a write whose temp-file write fails reports false
and leaves no temp file. -/
theorem c2_replace_all_witness :
    (writeNotes fltOK (JVal.arr []) ⟨[]⟩).2.1.get DATA_FILE
        = some (jStringify (JVal.arr []))
  ∧ (writeNotes fltOK (JVal.arr []) ⟨[]⟩).2.1.get TMP_FILE = none
  ∧ (writeNotes fltOK (JVal.arr []) ⟨[]⟩).2.2
      = [FsEv.wrote TMP_FILE, FsEv.renamed TMP_FILE DATA_FILE]
  ∧ (writeNotes ⟨false, true, true, true⟩ (JVal.arr []) ⟨[]⟩).1 = false
  ∧ (writeNotes ⟨false, true, true, true⟩ (JVal.arr []) ⟨[]⟩).2.1.get TMP_FILE
      = none := by
  have hA := c2_replace_all fltOK (JVal.arr []) ⟨[]⟩
  have hB := c2_replace_all ⟨false, true, true, true⟩ (JVal.arr []) ⟨[]⟩
  exact ⟨(hA.1 rfl rfl rfl).2.1, (hA.1 rfl rfl rfl).2.2,
    congrArg (fun t => t.2.2) (hA.1 rfl rfl rfl).1,
    (hB.2 (Or.inr (Or.inl rfl))).1, (hB.2 (Or.inr (Or.inl rfl))).2 rfl⟩

theorem backup_ne_data (n : Nat) : DATA_FILE ++ ".corrupted." ++ toString n ≠ DATA_FILE := by
  intro h
  have hl := congrArg String.length h
  rw [String.length_append, String.length_append] at hl
  have h11 : (".corrupted." : String).length = 11 := rfl
  rw [h11] at hl
  omega

theorem backup_ne_tmp (n : Nat) : DATA_FILE ++ ".corrupted." ++ toString n ≠ TMP_FILE := by
  intro h
  unfold TMP_FILE at h
  have hl := congrArg String.length h
  rw [String.length_append, String.length_append, String.length_append] at hl
  have h11 : (".corrupted." : String).length = 11 := rfl
  have h4 : (".tmp" : String).length = 4 := rfl
  rw [h11, h4] at hl
  omega

/-- C3.  Corruption recovery of `load`: when the backing file's content
fails to parse, `readNotes` copies the unreadable content to a backup
path embedding the detection instant, resets the backing file to the
serialized empty collection, and returns the empty collection; a
subsequent `load` (at any later instant, with any fault flags) returns
the empty collection again, leaves the file system untouched, and its
trace reads only the backing file — the backup is never consulted. -/
theorem c3_corruption_recovery (nowMs nowMs2 : Nat) (flt flt2 : Faults) (fs : FS)
    (data : String)
    (hfile : fs.get DATA_FILE = some data) (hws : allWs data = false)
    (hbad : jparse data = none)
    (hb : flt.backupOk = true) (h1 : flt.writeTmpOk = true) (h2 : flt.renameOk = true) :
    (readNotes nowMs flt fs).1 = []
  ∧ (readNotes nowMs flt fs).2.1.get (DATA_FILE ++ ".corrupted." ++ toString nowMs)
      = some data
  ∧ (readNotes nowMs flt fs).2.1.get DATA_FILE = some (jStringify (JVal.arr []))
  ∧ readNotes nowMs2 flt2 (readNotes nowMs flt fs).2.1
      = ([], (readNotes nowMs flt fs).2.1, [FsEv.readF DATA_FILE]) := by
  have hr : readNotes nowMs flt fs
      = ([],
          (((fs.set (DATA_FILE ++ ".corrupted." ++ toString nowMs) data).set TMP_FILE
              (jStringify (JVal.arr []))).del TMP_FILE).set DATA_FILE
            (jStringify (JVal.arr [])),
          [FsEv.readF DATA_FILE, FsEv.readF DATA_FILE,
            FsEv.wrote (DATA_FILE ++ ".corrupted." ++ toString nowMs),
            FsEv.wrote TMP_FILE, FsEv.renamed TMP_FILE DATA_FILE]) := by
    unfold readNotes
    rw [hfile]
    simp [hws, hbad, hb, writeNotes, h1, h2, isArray]
  have hgetBackup : (readNotes nowMs flt fs).2.1.get
      (DATA_FILE ++ ".corrupted." ++ toString nowMs) = some data := by
    rw [hr]
    rw [FS.get_set_other _ _ _ _ (backup_ne_data nowMs)]
    rw [FS.get_del_other _ _ _ (backup_ne_tmp nowMs)]
    rw [FS.get_set_other _ _ _ _ (backup_ne_tmp nowMs)]
    exact FS.get_set_same _ _ _
  have hgetData : (readNotes nowMs flt fs).2.1.get DATA_FILE
      = some (jStringify (JVal.arr [])) := by
    rw [hr]
    exact FS.get_set_same _ _ _
  refine ⟨by rw [hr], hgetBackup, hgetData, ?_⟩
  exact readNotes_wellFormed nowMs2 flt2 _ (jStringify (JVal.arr [])) [] hgetData rfl rfl

/-- Witness for C3 on a concrete corrupted store. -/
theorem c3_corruption_recovery_witness :
    (readNotes 55 fltOK ⟨[(DATA_FILE, "not json")]⟩).1 = []
  ∧ (readNotes 55 fltOK ⟨[(DATA_FILE, "not json")]⟩).2.1.get
      (DATA_FILE ++ ".corrupted." ++ toString 55) = some "not json"
  ∧ (readNotes 55 fltOK ⟨[(DATA_FILE, "not json")]⟩).2.1.get DATA_FILE
      = some (jStringify (JVal.arr []))
  ∧ readNotes 56 fltOK (readNotes 55 fltOK ⟨[(DATA_FILE, "not json")]⟩).2.1
      = ([], (readNotes 55 fltOK ⟨[(DATA_FILE, "not json")]⟩).2.1,
          [FsEv.readF DATA_FILE]) :=
  c3_corruption_recovery 55 56 fltOK fltOK ⟨[(DATA_FILE, "not json")]⟩ "not json"
    rfl rfl rfl rfl rfl rfl

theorem filter_not_length_lt (l : List JVal) (p : JVal → Bool) (h : l.any p = true) :
    (l.filter (fun x => !(p x))).length < l.length := by
  have hsplit := List.length_eq_length_filter_add (l := l) p
  rw [List.any_eq_true] at h
  obtain ⟨x, hx, hp⟩ := h
  have hmem : x ∈ l.filter p := List.mem_filter.mpr ⟨hx, hp⟩
  have hpos : 0 < (l.filter p).length := List.length_pos.mpr (List.ne_nil_of_mem hmem)
  omega

/-- C4.  When the persist step fails, each mutating operation reports a
storage failure (500) to its caller rather than success: create (with a
valid body, so the persist step is reached), update (when the id is
found, so the persist step is reached), and delete (when some note
matches the id). -/
theorem c4_persist_failure_reported (flt : Faults) (nowMs : Nat)
    (t1 t2 now rid1 rid2 : String) (body pbody : JVal) (fs : FS)
    (hfail : flt.writeTmpOk = false ∨ flt.renameOk = false)
    (hvt : jFalsyOpt (jGet body "title") = false)
    (hvc : jFalsyOpt (jGet body "content") = false) :
    (createHandler flt nowMs t1 t2 body fs).1 = 500
  ∧ (∀ m notes',
      updateList (readNotes nowMs flt fs).1 rid1 pbody now = some (m, notes') →
      (putHandler flt nowMs now rid1 pbody fs).1 = 500)
  ∧ ((readNotes nowMs flt fs).1.any (fun n => idMatches n rid2) = true →
      (deleteHandler flt nowMs rid2 fs).1 = 500) := by
  refine ⟨?_, ?_, ?_⟩
  · have hw := writeNotes_fail flt
      (JVal.arr ((readNotes nowMs flt fs).1 ++ [builtNote nowMs t1 t2 body]))
      (readNotes nowMs flt fs).2.1 hfail
    unfold createHandler
    simp [hvt, hvc, hw]
  · intro m notes' hupd
    have hw := writeNotes_fail flt (JVal.arr notes') (readNotes nowMs flt fs).2.1 hfail
    unfold putHandler
    simp [hupd, hw]
  · intro hany
    have hlt : ((readNotes nowMs flt fs).1.filter
        (fun n => !(idMatches n rid2))).length < (readNotes nowMs flt fs).1.length :=
      filter_not_length_lt (readNotes nowMs flt fs).1 (fun n => idMatches n rid2) hany
    have hne : ¬((readNotes nowMs flt fs).1.length
        = ((readNotes nowMs flt fs).1.filter (fun n => !(idMatches n rid2))).length) := by
      omega
    have hw := writeNotes_fail flt
      (JVal.arr ((readNotes nowMs flt fs).1.filter (fun n => !(idMatches n rid2))))
      (readNotes nowMs flt fs).2.1 hfail
    unfold deleteHandler
    simp [hne, hw]

/-- Witness for C4 on a one-note store with a failing temp-file write. -/
theorem c4_persist_failure_reported_witness :
    (createHandler ⟨false, true, true, true⟩ 9 "T1" "T2"
        (JVal.obj [("title", JVal.str "a"), ("content", JVal.str "b")])
        ⟨[(DATA_FILE, oneNoteData)]⟩).1 = 500
  ∧ (putHandler ⟨false, true, true, true⟩ 9 "T1" "1"
        (JVal.obj [("title", JVal.str "z")]) ⟨[(DATA_FILE, oneNoteData)]⟩).1 = 500
  ∧ (deleteHandler ⟨false, true, true, true⟩ 9 "1" ⟨[(DATA_FILE, oneNoteData)]⟩).1
      = 500 := by
  have h := c4_persist_failure_reported ⟨false, true, true, true⟩ 9 "T1" "T2" "T1" "1" "1"
    (JVal.obj [("title", JVal.str "a"), ("content", JVal.str "b")])
    (JVal.obj [("title", JVal.str "z")]) ⟨[(DATA_FILE, oneNoteData)]⟩
    (Or.inl rfl) rfl rfl
  exact ⟨h.1, h.2.1 _ _ rfl, h.2.2 rfl⟩

/-- The create body of the spec's concrete scenario. -/
def buyMilkBody : JVal :=
  JVal.obj [("title", JVal.str "Buy milk"), ("content", JVal.str "2%")]

/-- Counterexample to C5 as stated: `createdAt` and `updatedAt` come from
two separate `new Date().toISOString()` readings, so when the two
readings differ (here by one millisecond) the returned note has
`createdAt` different from `updatedAt`, while title and content are
non-empty and category, isReminder and reminderDate are omitted. -/
theorem c5_two_clock_counterexample :
    jGet ((createHandler fltOK 1000 "2024-01-01T00:00:00.000Z" "2024-01-01T00:00:00.001Z"
        buyMilkBody ⟨[(DATA_FILE, "[]")]⟩).2.1.getD JVal.null) "createdAt"
      = some (JVal.str "2024-01-01T00:00:00.000Z")
  ∧ jGet ((createHandler fltOK 1000 "2024-01-01T00:00:00.000Z" "2024-01-01T00:00:00.001Z"
        buyMilkBody ⟨[(DATA_FILE, "[]")]⟩).2.1.getD JVal.null) "updatedAt"
      = some (JVal.str "2024-01-01T00:00:00.001Z")
  ∧ ("2024-01-01T00:00:00.000Z" : String) ≠ "2024-01-01T00:00:00.001Z" :=
  ⟨rfl, rfl, by decide⟩

/-- C5 amended.  For every create input with non-empty (truthy) title and
content and with category, isReminder and reminderDate omitted, the
operation answers 201 with the built note, whose category is "Personal",
isReminder false, reminderDate null, completed false; and provided the
two Date readings taken during create coincide (`t1 = t2 = t`),
`createdAt` equals `updatedAt`. -/
theorem c5_create_defaults (flt : Faults) (nowMs : Nat) (t : String) (body : JVal)
    (fs : FS)
    (hvt : jFalsyOpt (jGet body "title") = false)
    (hvc : jFalsyOpt (jGet body "content") = false)
    (hcat : jGet body "category" = none)
    (hrem : jGet body "isReminder" = none)
    (hrd : jGet body "reminderDate" = none)
    (h1 : flt.writeTmpOk = true) (h2 : flt.renameOk = true) :
    (createHandler flt nowMs t t body fs).1 = 201
  ∧ (createHandler flt nowMs t t body fs).2.1 = some (builtNote nowMs t t body)
  ∧ jGet (builtNote nowMs t t body) "category" = some (JVal.str "Personal")
  ∧ jGet (builtNote nowMs t t body) "isReminder" = some (JVal.bool false)
  ∧ jGet (builtNote nowMs t t body) "reminderDate" = some JVal.null
  ∧ jGet (builtNote nowMs t t body) "completed" = some (JVal.bool false)
  ∧ jGet (builtNote nowMs t t body) "createdAt" = some (JVal.str t)
  ∧ jGet (builtNote nowMs t t body) "updatedAt" = some (JVal.str t) := by
  have hw := writeNotes_ok flt
    (JVal.arr ((readNotes nowMs flt fs).1 ++ [builtNote nowMs t t body]))
    (readNotes nowMs flt fs).2.1 rfl h1 h2
  have hcatv : jGet (builtNote nowMs t t body) "category"
      = some (jOr (jGet body "category") (JVal.str "Personal")) := rfl
  have hremv : jGet (builtNote nowMs t t body) "isReminder"
      = some (jOr (jGet body "isReminder") (JVal.bool false)) := rfl
  have hrdv : jGet (builtNote nowMs t t body) "reminderDate"
      = some (jOr (jGet body "reminderDate") JVal.null) := rfl
  refine ⟨?_, ?_, ?_, ?_, ?_, rfl, rfl, rfl⟩
  · unfold createHandler
    simp [hvt, hvc, hw]
  · unfold createHandler
    simp [hvt, hvc, hw]
  · rw [hcatv, hcat]; rfl
  · rw [hremv, hrem]; rfl
  · rw [hrdv, hrd]; rfl

/-- Witness for the amended C5 on the spec's "Buy milk" scenario. -/
theorem c5_create_defaults_witness :
    (createHandler fltOK 1000 "T" "T" buyMilkBody ⟨[(DATA_FILE, "[]")]⟩).1 = 201
  ∧ jGet (builtNote 1000 "T" "T" buyMilkBody) "category" = some (JVal.str "Personal")
  ∧ jGet (builtNote 1000 "T" "T" buyMilkBody) "isReminder" = some (JVal.bool false)
  ∧ jGet (builtNote 1000 "T" "T" buyMilkBody) "reminderDate" = some JVal.null
  ∧ jGet (builtNote 1000 "T" "T" buyMilkBody) "completed" = some (JVal.bool false)
  ∧ jGet (builtNote 1000 "T" "T" buyMilkBody) "createdAt"
      = jGet (builtNote 1000 "T" "T" buyMilkBody) "updatedAt" := by
  have h := c5_create_defaults fltOK 1000 "T" buyMilkBody ⟨[(DATA_FILE, "[]")]⟩
    rfl rfl rfl rfl rfl rfl rfl
  exact ⟨h.1, h.2.2.1, h.2.2.2.1, h.2.2.2.2.1, h.2.2.2.2.2.1,
    by rw [h.2.2.2.2.2.2.1, h.2.2.2.2.2.2.2]⟩

/-- A store whose single note carries id "100". -/
def collide100Data : String :=
  "[\x7b\"id\": \"100\", \"title\": \"a\", \"content\": \"b\"\x7d]"

/-- A minimal valid create body. -/
def xyBody : JVal := JVal.obj [("title", JVal.str "x"), ("content", JVal.str "y")]

/-- Counterexample to C6 as stated: the id is `Date.now().toString()` with
no collision check, so creating at millisecond 100 against a collection
already holding a note with id "100" assigns that very same id — the new
id equals an existing one and uniqueness is violated. -/
theorem c6_id_collision_counterexample :
    (readNotes 100 fltOK ⟨[(DATA_FILE, collide100Data)]⟩).1.map idKey = [some "100"]
  ∧ idKey ((createHandler fltOK 100 "T" "T" xyBody
        ⟨[(DATA_FILE, collide100Data)]⟩).2.1.getD JVal.null) = some "100"
  ∧ ¬ (((readNotes 100 fltOK ⟨[(DATA_FILE, collide100Data)]⟩).1
        ++ [builtNote 100 "T" "T" xyBody]).map idKey).Nodup :=
  ⟨rfl, rfl, by decide⟩

/-- C6 amended.  Create assigns `Date.now().toString()` as the id; the
code performs no collision check, so uniqueness is preserved exactly when
that string differs from every stored id: under that proviso the new id
differs from every pre-existing id and the persisted collection's ids
remain pairwise distinct. -/
theorem c6_create_unique_id (flt : Faults) (nowMs : Nat) (t1 t2 : String) (body : JVal)
    (fs : FS) (data : String) (notes : List JVal)
    (hfile : fs.get DATA_FILE = some data) (hws : allWs data = false)
    (hparse : jparse data = some (JVal.arr notes))
    (hvt : jFalsyOpt (jGet body "title") = false)
    (hvc : jFalsyOpt (jGet body "content") = false)
    (hfresh : ∀ n ∈ notes, idKey n ≠ some (toString nowMs))
    (hnodup : (notes.map idKey).Nodup)
    (h1 : flt.writeTmpOk = true) (h2 : flt.renameOk = true) :
    (createHandler flt nowMs t1 t2 body fs).1 = 201
  ∧ idKey (builtNote nowMs t1 t2 body) = some (toString nowMs)
  ∧ (∀ n ∈ notes, idKey n ≠ idKey (builtNote nowMs t1 t2 body))
  ∧ ((notes ++ [builtNote nowMs t1 t2 body]).map idKey).Nodup
  ∧ (createHandler flt nowMs t1 t2 body fs).2.2.get DATA_FILE
      = some (jStringify (JVal.arr (notes ++ [builtNote nowMs t1 t2 body]))) := by
  have hread := readNotes_wellFormed nowMs flt fs data notes hfile hws hparse
  have hw := writeNotes_ok flt (JVal.arr (notes ++ [builtNote nowMs t1 t2 body])) fs
    rfl h1 h2
  have hhandler : createHandler flt nowMs t1 t2 body fs
      = (201, some (builtNote nowMs t1 t2 body),
          ((fs.set TMP_FILE (jStringify (JVal.arr (notes ++ [builtNote nowMs t1 t2 body])))).del
              TMP_FILE).set DATA_FILE
            (jStringify (JVal.arr (notes ++ [builtNote nowMs t1 t2 body])))) := by
    unfold createHandler
    rw [hread]
    simp [hvt, hvc, hw]
  refine ⟨by rw [hhandler], rfl, ?_, ?_, ?_⟩
  · intro n hn
    exact hfresh n hn
  · rw [List.map_append, List.nodup_append]
    refine ⟨hnodup, List.nodup_singleton _, ?_⟩
    intro a ha hb
    simp only [List.map_cons, List.map_nil, List.mem_singleton] at hb
    obtain ⟨n, hn, hna⟩ := List.mem_map.mp ha
    exact hfresh n hn (by rw [hna, hb]; rfl)
  · rw [hhandler]
    exact FS.get_set_same _ _ _

/-- Witness for the amended C6: creating at millisecond 2 against a store
whose single note has id "1". -/
theorem c6_create_unique_id_witness :
    (createHandler fltOK 2 "T1" "T2" xyBody ⟨[(DATA_FILE, oneNoteData)]⟩).1 = 201
  ∧ idKey (builtNote 2 "T1" "T2" xyBody) = some "2"
  ∧ (∀ n ∈ [oneNote], idKey n ≠ idKey (builtNote 2 "T1" "T2" xyBody))
  ∧ (([oneNote] ++ [builtNote 2 "T1" "T2" xyBody]).map idKey).Nodup := by
  have h := c6_create_unique_id fltOK 2 "T1" "T2" xyBody ⟨[(DATA_FILE, oneNoteData)]⟩
    oneNoteData [oneNote] rfl rfl rfl rfl rfl (by decide) (by decide) rfl rfl
  exact ⟨h.1, h.2.1, h.2.2.1, h.2.2.2.1⟩

theorem filter_out_unique : ∀ (notes : List JVal) (m : JVal) (rid : String),
    (notes.map idKey).Nodup → m ∈ notes → idKey m = some rid →
    (notes.filter (fun n => !(idMatches n rid))).length + 1 = notes.length := by
  intro notes
  induction notes with
  | nil => intro m rid _ hm _; cases hm
  | cons n rest ih =>
    intro m rid hnodup hm hid
    rw [List.map_cons, List.nodup_cons] at hnodup
    obtain ⟨hnotin, hnd⟩ := hnodup
    cases hn : idMatches n rid with
    | true =>
      have hkey : idKey n = some rid := (idMatches_iff n rid).mp hn
      have hrest : ∀ x ∈ rest, idMatches x rid = false := by
        intro x hx
        cases hxx : idMatches x rid with
        | false => rfl
        | true =>
          have hxkey : idKey x = some rid := (idMatches_iff x rid).mp hxx
          exact absurd (List.mem_map.mpr ⟨x, hx, by rw [hxkey, hkey]⟩) hnotin
      have hkeep : rest.filter (fun x => !(idMatches x rid)) = rest :=
        List.filter_eq_self.mpr (fun x hx => by rw [hrest x hx]; rfl)
      simp [List.filter_cons, hn, hkeep]
    | false =>
      have hm' : m ∈ rest := by
        rcases List.mem_cons.mp hm with rfl | h
        · exact absurd ((idMatches_iff m rid).mpr hid) (by rw [hn]; simp)
        · exact h
      have hrec := ih m rid hnd hm' hid
      simp only [List.filter_cons, hn, Bool.not_false, if_true, List.length_cons]
      omega

theorem find_after_filter (notes : List JVal) (rid : String) :
    findNote (notes.filter (fun n => !(idMatches n rid))) rid = none := by
  apply List.find?_eq_none.mpr
  intro x hx hcon
  have hkeep := (List.mem_filter.mp hx).2
  rw [hcon] at hkeep
  exact absurd hkeep (by decide)

/-- C8.  Delete: on an id present in a collection with pairwise-distinct
ids, the operation succeeds (200), the resulting collection is exactly
one shorter, the persisted file holds the filtered collection, and a
subsequent find of that id yields nothing; on an id absent from the
collection the operation answers 404 and the file system is completely
unchanged. -/
theorem c8_delete_semantics (flt : Faults) (nowMs : Nat) (fs : FS) (data : String)
    (notes : List JVal) (m : JVal) (rid1 rid2 : String)
    (hfile : fs.get DATA_FILE = some data) (hws : allWs data = false)
    (hparse : jparse data = some (JVal.arr notes))
    (hnodup : (notes.map idKey).Nodup)
    (hm : m ∈ notes) (hid : idKey m = some rid1)
    (habs : ∀ n ∈ notes, idKey n ≠ some rid2)
    (h1 : flt.writeTmpOk = true) (h2 : flt.renameOk = true) :
    (deleteHandler flt nowMs rid1 fs).1 = 200
  ∧ (notes.filter (fun n => !(idMatches n rid1))).length + 1 = notes.length
  ∧ findNote (notes.filter (fun n => !(idMatches n rid1))) rid1 = none
  ∧ (deleteHandler flt nowMs rid1 fs).2.get DATA_FILE
      = some (jStringify (JVal.arr (notes.filter (fun n => !(idMatches n rid1)))))
  ∧ deleteHandler flt nowMs rid2 fs = (404, fs) := by
  have hread := readNotes_wellFormed nowMs flt fs data notes hfile hws hparse
  have hlen := filter_out_unique notes m rid1 hnodup hm hid
  have hne : ¬(notes.length
      = (notes.filter (fun n => !(idMatches n rid1))).length) := by omega
  have hw := writeNotes_ok flt (JVal.arr (notes.filter (fun n => !(idMatches n rid1))))
    fs rfl h1 h2
  have hdel1 : deleteHandler flt nowMs rid1 fs
      = (200,
          ((fs.set TMP_FILE
              (jStringify (JVal.arr (notes.filter (fun n => !(idMatches n rid1)))))).del
            TMP_FILE).set DATA_FILE
            (jStringify (JVal.arr (notes.filter (fun n => !(idMatches n rid1)))))) := by
    unfold deleteHandler
    rw [hread]
    simp [hne, hw]
  have habs' : ∀ n ∈ notes, idMatches n rid2 = false := by
    intro n hn
    cases hx : idMatches n rid2 with
    | false => rfl
    | true => exact absurd ((idMatches_iff n rid2).mp hx) (habs n hn)
  have hkeep : notes.filter (fun n => !(idMatches n rid2)) = notes :=
    List.filter_eq_self.mpr (fun n hn => by rw [habs' n hn]; rfl)
  have hdel2 : deleteHandler flt nowMs rid2 fs = (404, fs) := by
    unfold deleteHandler
    rw [hread]
    simp [hkeep]
  exact ⟨by rw [hdel1], hlen, find_after_filter notes rid1,
    by rw [hdel1]; exact FS.get_set_same _ _ _, hdel2⟩

/-- A second note, with id "2". -/
def noteTwo : JVal := JVal.obj [("id", JVal.str "2"), ("title", JVal.str "c"),
  ("content", JVal.str "d")]

/-- A store holding the notes with ids "1" and "2". -/
def twoNotesData : String :=
  "[\x7b\"id\": \"1\", \"title\": \"a\", \"content\": \"b\", \"category\": \"Work\"\x7d, \x7b\"id\": \"2\", \"title\": \"c\", \"content\": \"d\"\x7d]"

/-- Witness for C8: deleting id "1" from a two-note store, and deleting
the absent id "99". -/
theorem c8_delete_semantics_witness :
    (deleteHandler fltOK 9 "1" ⟨[(DATA_FILE, twoNotesData)]⟩).1 = 200
  ∧ ([oneNote, noteTwo].filter (fun n => !(idMatches n "1"))).length + 1
      = ([oneNote, noteTwo] : List JVal).length
  ∧ findNote ([oneNote, noteTwo].filter (fun n => !(idMatches n "1"))) "1" = none
  ∧ deleteHandler fltOK 9 "99" ⟨[(DATA_FILE, twoNotesData)]⟩
      = (404, ⟨[(DATA_FILE, twoNotesData)]⟩) := by
  have h := c8_delete_semantics fltOK 9 ⟨[(DATA_FILE, twoNotesData)]⟩ twoNotesData
    [oneNote, noteTwo] oneNote "1" "99" rfl rfl rfl (by decide)
    (List.mem_cons_self oneNote [noteTwo]) rfl
    (by
      intro n hn
      cases hn with
      | head => decide
      | tail _ h2 =>
        cases h2 with
        | head => decide
        | tail _ h3 => cases h3)
    rfl rfl
  exact ⟨h.1, h.2.1, h.2.2.1, h.2.2.2.2⟩

/-- C9.  Listing and category filtering: the GET handler returns every
stored note; the client-side filter with the sentinel value "all" keeps
every note; and with any other filter value a note is kept exactly when
its category string equals the filter value — strict, case-sensitive
string equality, no partial matching. -/
theorem c9_list_category_filter (flt : Faults) (nowMs : Nat) (fs : FS) (data : String)
    (notes : List JVal) (c : String) (hc : c ≠ "all")
    (hfile : fs.get DATA_FILE = some data) (hws : allWs data = false)
    (hparse : jparse data = some (JVal.arr notes)) :
    (listHandler flt nowMs fs).2.1 = notes
  ∧ renderFiltered "all" notes = notes
  ∧ (∀ n, n ∈ renderFiltered c notes
      ↔ n ∈ notes ∧ jGet n "category" = some (JVal.str c)) := by
  have hread := readNotes_wellFormed nowMs flt fs data notes hfile hws hparse
  refine ⟨?_, by simp [renderFiltered], ?_⟩
  · unfold listHandler
    rw [hread]
  · intro n
    unfold renderFiltered
    rw [if_neg hc]
    simp [List.mem_filter, catMatches_iff]

/-- Three notes of which exactly one carries the category "Work". -/
def w3a : JVal := JVal.obj [("id", JVal.str "1"), ("category", JVal.str "School")]

/-- The one "Work" note of the three. -/
def w3b : JVal := JVal.obj [("id", JVal.str "2"), ("category", JVal.str "Work")]

/-- The "Personal" note of the three. -/
def w3c : JVal := JVal.obj [("id", JVal.str "3"), ("category", JVal.str "Personal")]

/-- The serialized three-note store. -/
def w3Data : String :=
  "[\x7b\"id\": \"1\", \"category\": \"School\"\x7d, \x7b\"id\": \"2\", \"category\": \"Work\"\x7d, \x7b\"id\": \"3\", \"category\": \"Personal\"\x7d]"

/-- Witness for C9 on the spec's three-note scenario: filtering by "Work"
returns exactly the one "Work" note. -/
theorem c9_list_category_filter_witness :
    (listHandler fltOK 1 ⟨[(DATA_FILE, w3Data)]⟩).2.1 = [w3a, w3b, w3c]
  ∧ renderFiltered "all" [w3a, w3b, w3c] = [w3a, w3b, w3c]
  ∧ (w3b ∈ renderFiltered "Work" [w3a, w3b, w3c]
      ↔ w3b ∈ [w3a, w3b, w3c] ∧ jGet w3b "category" = some (JVal.str "Work"))
  ∧ renderFiltered "Work" [w3a, w3b, w3c] = [w3b] := by
  have h := c9_list_category_filter fltOK 1 ⟨[(DATA_FILE, w3Data)]⟩ w3Data
    [w3a, w3b, w3c] "Work" (by decide) rfl rfl rfl
  exact ⟨h.1, h.2.1, h.2.2 w3b, rfl⟩
